import Mathlib

/-!
Verification of the PQCEnergyPi collector (`src/Collector/responder.py`).

The file embeds, as executable Lean definitions, the parts of `responder.py`
the specification talks about:

* the TC66C protocol codec (`TC66C.Poll` field extraction and `TC66C.SendCmd`),
* the energy accumulator (`read_usb_data` and its global latch state),
* session finalization (`cleanup`) and the summary log,
* the control-message handler (`process_network_message`) together with the
  listener gate (`while not stop_event.is_set()` in `network_listener`).

Python floats are modelled as rationals, the unsigned 32-bit counters coming
out of `struct.unpack("<...I", ...)` as naturals, `datetime.now()` timestamps
as naturals supplied by the environment, and exceptions as explicit error
flags / `Option` results.
-/

namespace PQCEnergyPi

/-! ## Device protocol codec -/

/-- Little-endian 32-bit word of `data` at byte offset `off`, as produced by
`struct.unpack("<...I", ...)` in `TC66C.Poll` (missing bytes read as 0). -/
def leU32 (data : List Nat) (off : Nat) : Nat :=
  data.getD off 0 + data.getD (off + 1) 0 * 256 + data.getD (off + 2) 0 * 65536 +
    data.getD (off + 3) 0 * 16777216

/-- The `PollData` namedtuple of the `TC66C` class.  `Name` and `Version` keep
the raw 4-byte tag slices; scaled measurement fields are rationals. -/
structure PollData where
  Name : List Nat
  Version : List Nat
  SN : Nat
  Runs : Nat
  Volt : ℚ
  Current : ℚ
  Power : ℚ
  Resistance : ℚ
  G0_mAh : Nat
  G0_mWh : Nat
  G1_mAh : Nat
  G1_mWh : Nat
  Temp : ℤ
  D_plus : ℚ
  D_minus : ℚ
  deriving Repr, DecidableEq

/-- Field extraction of `TC66C.Poll` applied to the 192 decrypted bytes:
`pac1 = unpack("<4s4s4s13I", data[0:64])`, `pac2 = unpack("<4s15I", data[64:128])`,
temperature sign from `pac2[6]`, and the fixed-point scale factors of the source
(`*1e-4`, `*1e-5`, `*1e-4`, `*1e-1`, `*1e-2`, `*1e-2`).  A buffer that is not
exactly 192 bytes makes `struct.unpack` raise, modelled as `none`. -/
def pollDecode (data : List Nat) : Option PollData :=
  if data.length = 192 then
    let tsign : ℤ := if leU32 data 88 = 1 then -1 else 1
    some
      { Name := (data.drop 4).take 4
        Version := (data.drop 8).take 4
        SN := leU32 data 12
        Runs := leU32 data 44
        Volt := (leU32 data 48 : ℚ) * (1 / 10000)
        Current := (leU32 data 52 : ℚ) * (1 / 100000)
        Power := (leU32 data 56 : ℚ) * (1 / 10000)
        Resistance := (leU32 data 68 : ℚ) * (1 / 10)
        G0_mAh := leU32 data 72
        G0_mWh := leU32 data 76
        G1_mAh := leU32 data 80
        G1_mWh := leU32 data 84
        Temp := (leU32 data 92 : ℤ) * tsign
        D_plus := (leU32 data 96 : ℚ) * (1 / 100)
        D_minus := (leU32 data 100 : ℚ) * (1 / 100) }
  else none

/-- The seven command names documented in the `TC66C.SendCmd` docstring. -/
def validCommands : List String :=
  ["query", "getva", "gtrec", "lastp", "nextp", "rotat", "update"]

/-- `TC66C.SendCmd`: `self._SIF.write(msg.encode("ascii"))`.  The returned
bytes are what is written to the serial port; `msg.encode("ascii")` raises
(`none`) only when a character is outside the ASCII range.  No check against
the documented command set is performed. -/
def SendCmd (msg : String) : Option (List Nat) :=
  if msg.toList.all (fun c => c.toNat < 128) then
    some (msg.toList.map Char.toNat)
  else none

/-- Little-endian 4-byte encoding of a 32-bit value, the inverse direction of
`struct.unpack("<I", ...)`. -/
def u32le (v : Nat) : List Nat :=
  [v % 256, v / 256 % 256, v / 65536 % 256, v / 16777216 % 256]

/-- A 192-byte telemetry frame assembled from its 48 little-endian 32-bit
words (missing words are zero). -/
def packFrame (ws : List Nat) : List Nat :=
  (ws.map u32le).flatten

/-! ## Energy accumulator (`read_usb_data` and its globals) -/

/-- Outcome of one `TC66C.Poll()` call as seen by `read_usb_data`:
the call can raise (serial misread, short buffer, bad tag bytes), return
`None` (the caught decrypt-error path), or return a record. -/
inductive PollOutcome
  | raised
  | failed
  | record (pd : PollData)
  deriving Repr, DecidableEq

/-- The global state of the accumulator: `first_reading_time`, `last_reading_time`,
`first_mWh`, `last_mWh`, `GatherErrorCount` and `previous_joules`. -/
structure AccState where
  firstReadingTime : Option Nat
  lastReadingTime : Option Nat
  firstMWh : Option Nat
  lastMWh : Option Nat
  GatherErrorCount : Nat
  previousJoules : Option ℚ
  deriving Repr, DecidableEq

/-- The initial values of the accumulator globals. -/
def AccState.initial : AccState :=
  { firstReadingTime := none
    lastReadingTime := none
    firstMWh := none
    lastMWh := none
    GatherErrorCount := 0
    previousJoules := none }

/-- Pop the next poll outcome from the pending serial stream; an exhausted
stream gives a short read, on which `struct.unpack` raises. -/
def popPoll : List PollOutcome → PollOutcome × List PollOutcome
  | [] => (.raised, [])
  | p :: rest => (p, rest)

/-- The body of `read_usb_data` after the first-time flush poll: `pd` truthy
check, the first-reading latch, the unconditional update of
`last_reading_time` / `last_mWh`, the `if last_mWh >= 0:` guard (the source
tests the cumulative counter, not the energy delta), and the
`previous_joules` update.  An exception increments `GatherErrorCount`. -/
def readMain (s : AccState) (now : Nat) (polls : List PollOutcome) :
    AccState × Option PollData × List PollOutcome :=
  match popPoll polls with
  | (.raised, rest) => ({ s with GatherErrorCount := s.GatherErrorCount + 1 }, none, rest)
  | (.failed, rest) => (s, none, rest)
  | (.record pd, rest) =>
    let s1 :=
      if s.firstReadingTime.isNone then
        { s with firstReadingTime := some now, firstMWh := some (pd.G0_mWh + pd.G1_mWh) }
      else s
    let lastVal := pd.G0_mWh + pd.G1_mWh
    let s2 := { s1 with lastReadingTime := some now, lastMWh := some lastVal }
    let current_joules : ℚ := ((lastVal : ℚ) - ((s1.firstMWh.getD 0 : Nat) : ℚ)) * (36 / 10)
    let s3 :=
      if (0 : Int) ≤ (lastVal : Int) then
        { s2 with previousJoules := some current_joules }
      else s2
    (s3, some pd, rest)

/-- `read_usb_data`: on the first call of a session an extra flush poll is
made and its value discarded (a raise there is still counted and aborts the
call); then the main poll is processed by `readMain`. -/
def read_usb_data (s : AccState) (now : Nat) (polls : List PollOutcome) :
    AccState × Option PollData × List PollOutcome :=
  if s.firstReadingTime.isNone then
    match popPoll polls with
    | (.raised, rest) => ({ s with GatherErrorCount := s.GatherErrorCount + 1 }, none, rest)
    | (_, rest) => readMain s now rest
  else
    readMain s now polls

/-- A `PollData` record carrying only the two cumulative mWh counters (all
other fields zero), for concrete accumulator traces. -/
def mkPollData (g0 g1 : Nat) : PollData :=
  { Name := []
    Version := []
    SN := 0
    Runs := 0
    Volt := 0
    Current := 0
    Power := 0
    Resistance := 0
    G0_mAh := 0
    G0_mWh := g0
    G1_mAh := 0
    G1_mWh := g1
    Temp := 0
    D_plus := 0
    D_minus := 0 }

/-! ## Session state, finalization (`cleanup`) and control messages -/

/-- The typed view of the `experiment_params` JSON dict received in a
`GETREADY` message; absent keys are `none` (`dict.get` defaults apply at the
use sites). -/
structure ExperimentParams where
  iterations : Option Int
  algorithm : Option String
  experiment_id : Option String
  sample_period : Option ℚ
  deriving Repr, DecidableEq

/-- A derived per-1000-iterations rate as computed by `cleanup`: either a
number or the string `"N/A"` (the Python variable holds one or the other). -/
inductive RateField
  | num (q : ℚ)
  | na
  deriving Repr, DecidableEq

/-- One line of the `AllResults.csv` summary log (field values of the
`singleliner` appended by `cleanup`). -/
structure SummaryRecord where
  timestamp : Nat
  iterations : Option Int
  algorithm : Option String
  experiment_id : Option String
  totalJoules : ℚ
  durationSeconds : ℚ
  joulesPer1000 : RateField
  secondsPer1000 : RateField
  deriving Repr, DecidableEq

/-- The per-experiment detail file handle (`output_file`): whether the handle
is open and whether the header row has been written. -/
structure DetailFile where
  isOpen : Bool
  headerWritten : Bool
  deriving Repr, DecidableEq

/-- The typed view of the `STOP` message JSON payload. -/
structure StopData where
  time_to_run : Option ℚ
  start_temperature : Option ℚ
  stop_temperature : Option ℚ
  deriving Repr, DecidableEq

/-- The module-level state shared by the network listener and the data
acquisition thread: `running`, `stop_event`, the own liveness of the listener
thread (it dies on `sys.exit(1)` inside `TC66C.__init__`), the
`experiment_params` dict (`none` = initial empty dict), `output_file`,
`tc66c_instance` (`true` once a connection object exists), `data_thread`
liveness, the accumulator globals, and the contents of `AllResults.csv`. -/
structure SysState where
  running : Bool
  stopEvent : Bool
  listenerAlive : Bool
  experimentParams : Option ExperimentParams
  outputFile : Option DetailFile
  tc66cConnected : Bool
  dataThreadRunning : Bool
  acc : AccState
  masterLog : List SummaryRecord
  deriving Repr, DecidableEq

/-- Process start-up values of the globals. -/
def SysState.initial : SysState :=
  { running := false
    stopEvent := false
    listenerAlive := true
    experimentParams := none
    outputFile := none
    tc66cConnected := false
    dataThreadRunning := false
    acc := AccState.initial
    masterLog := [] }

/-- `cleanup()`: closes the detail-file handle, and, when all four of
`first_reading_time` / `last_reading_time` / `first_mWh` / `last_mWh` are
latched, computes `total_joules = (last_mWh - first_mWh) * 3.6`, the two
per-1000-iterations rates guarded by `iterations > 0` (with
`experiment_params.get("iterations", 1)`), and appends one summary line.
Formatting the line applies `:.3f` to both rate variables; when a rate holds
the string `"N/A"` that f-string raises `ValueError` (returned flag `true`)
before anything is appended.  On the success and the not-latched paths
`previous_joules` is reset; on the raising path the reset line is never
reached.  (The trailing `if stop_data:` block is dead: the `STOP` handler
assigns a local, so the global `stop_data` stays `{}`.) -/
def cleanup (s : SysState) (now : Nat) : SysState × Bool :=
  let s0 := { s with outputFile := s.outputFile.map fun f => { f with isOpen := false } }
  if s0.acc.firstReadingTime.isSome && s0.acc.lastReadingTime.isSome &&
      s0.acc.firstMWh.isSome && s0.acc.lastMWh.isSome then
    let fm : Nat := s0.acc.firstMWh.getD 0
    let lm : Nat := s0.acc.lastMWh.getD 0
    let ft : Nat := s0.acc.firstReadingTime.getD 0
    let lt : Nat := s0.acc.lastReadingTime.getD 0
    let total_joules : ℚ := (((lm : Int) - (fm : Int) : Int) : ℚ) * (36 / 10)
    let iterations : Int := (s0.experimentParams.bind fun p => p.iterations).getD 1
    let joules_per_1000_iterations : RateField :=
      if 0 < iterations then .num (total_joules / (iterations : ℚ) * 1000) else .na
    let experiment_duration : ℚ := (((lt : Int) - (ft : Int) : Int) : ℚ)
    let time_per_1000_iterations : RateField :=
      if 0 < iterations then .num (experiment_duration / (iterations : ℚ) * 1000) else .na
    match joules_per_1000_iterations, time_per_1000_iterations with
    | .num j, .num t =>
      let row : SummaryRecord :=
        { timestamp := now
          iterations := s0.experimentParams.bind fun p => p.iterations
          algorithm := s0.experimentParams.bind fun p => p.algorithm
          experiment_id := s0.experimentParams.bind fun p => p.experiment_id
          totalJoules := total_joules
          durationSeconds := experiment_duration
          joulesPer1000 := .num j
          secondsPer1000 := .num t }
      ({ s0 with masterLog := s0.masterLog ++ [row]
                 acc := { s0.acc with previousJoules := none } }, false)
    | _, _ => (s0, true)
  else
    ({ s0 with acc := { s0.acc with previousJoules := none } }, false)

/-- Outcome of the `TC66C(com_port)` constructor call inside the `GETREADY`
handler: success, a `serial.SerialException` (the constructor calls
`sys.exit(1)`, which as `SystemExit` is not caught by `except Exception` and
terminates the listener thread), or any other exception (caught and logged,
early `return`). -/
inductive ConnectResult
  | ok
  | serialFail
  | otherFail
  deriving Repr, DecidableEq

/-- A control datagram as seen by `process_network_message`, with the
`json.loads` result of its payload (`none` = parse or format failure). -/
inductive NetMsg
  | getready (payload : Option ExperimentParams)
  | start
  | stop (payload : Option StopData)
  | other
  deriving Repr, DecidableEq

/-- Environment inputs of one message-processing step: the wall clock and the
outcomes of the `open(filename, "w")` and `TC66C(com_port)` calls. -/
structure Env where
  now : Nat
  fileOpenOk : Bool
  connect : ConnectResult
  deriving Repr, DecidableEq

/-- `process_network_message`.
`GETREADY`: installs the parsed params (a parse failure is caught before the
assignment lands), opens/truncates the detail file and writes its header
(an open failure is caught and the old handle kept), then constructs the
`TC66C`; only on success are the four reading latches reset
(`GatherErrorCount` is never reset, and the `previous_joules = None` line
binds a local, not the global).
`START`: spawns the acquisition thread only if `experiment_params`,
`output_file` and `tc66c_instance` are all truthy, else logged and ignored.
`STOP`: clears `running`, joins the data thread, runs `cleanup()`, and sets
`stop_event` — unless `cleanup` raised, in which case the exception is caught
by the handler and `stop_event` is never set; the trailing metadata parse
assigns a local `stop_data`, changing no global. -/
def process_network_message (s : SysState) (m : NetMsg) (env : Env) : SysState :=
  match m with
  | .getready payload =>
    match payload with
    | none => s
    | some p =>
      let s1 := { s with experimentParams := some p }
      let s2 :=
        if env.fileOpenOk then
          { s1 with outputFile := some { isOpen := true, headerWritten := true } }
        else s1
      match env.connect with
      | .serialFail => { s2 with listenerAlive := false }
      | .otherFail => s2
      | .ok =>
        { s2 with tc66cConnected := true
                  acc := { s2.acc with firstReadingTime := none, lastReadingTime := none,
                                       firstMWh := none, lastMWh := none } }
  | .start =>
    if s.experimentParams.isSome && s.outputFile.isSome && s.tc66cConnected then
      { s with running := true, dataThreadRunning := true }
    else s
  | .stop _ =>
    let s1 := { s with running := false, dataThreadRunning := false }
    let r := cleanup s1 env.now
    if r.2 then r.1 else { r.1 with stopEvent := true }
  | .other => s

/-- One iteration of the UDP loop in `network_listener`: a datagram is
handed to `process_network_message` only while `stop_event` is unset and the
listener thread is still alive. -/
def receive_message (s : SysState) (m : NetMsg) (env : Env) : SysState :=
  if s.stopEvent || !s.listenerAlive then s else process_network_message s m env

/-! ## Concrete inputs used in witnesses and counterexamples -/

/-- A typical `GETREADY` parameter set. -/
def expParams1 : ExperimentParams :=
  { iterations := some 1000
    algorithm := some "ML-KEM-512"
    experiment_id := some "t1"
    sample_period := some (1 / 10) }

/-- Environment where file open and device connection both succeed. -/
def envOk : Env := { now := 0, fileOpenOk := true, connect := .ok }

/-- Environment where the `TC66C` constructor raises a non-serial exception. -/
def envFail : Env := { now := 0, fileOpenOk := true, connect := .otherFail }

/-- An accumulator state with a completed latch: first reading at time 0 with
100 mWh, last reading at time 10 with 200 mWh. -/
def latchedAcc : AccState :=
  { firstReadingTime := some 0
    lastReadingTime := some 10
    firstMWh := some 100
    lastMWh := some 200
    GatherErrorCount := 0
    previousJoules := none }

/-- A session state holding `expParams1` and the latched readings. -/
def latchedState : SysState :=
  { SysState.initial with experimentParams := some expParams1, acc := latchedAcc }

/-- The state of a session in the running phase. -/
def runState : SysState :=
  { latchedState with
      running := true
      dataThreadRunning := true
      tc66cConnected := true
      outputFile := some { isOpen := true, headerWritten := true } }

/-- Word values of a sample telemetry frame (48 little-endian 32-bit words):
volt 12345, current 678, power 910, resistance 55, G0 250 mWh, G1 0 mWh,
temperature sign flag 1, temperature magnitude 30, D plus 150, D minus 75. -/
def sampleFrameWords : List Nat :=
  [0, 0, 0, 7, 0, 0, 0, 0, 0, 0, 0, 42, 12345, 678, 910, 0,
   0, 55, 1, 250, 2, 0, 1, 30, 150, 75] ++ List.replicate 22 0

/-! ## Helper lemmas -/

theorem receive_message_open (s : SysState) (m : NetMsg) (env : Env)
    (hse : s.stopEvent = false) (hal : s.listenerAlive = true) :
    receive_message s m env = process_network_message s m env := by
  simp [receive_message, hse, hal]

theorem receive_message_closed (s : SysState) (m : NetMsg) (env : Env)
    (h : s.stopEvent = true ∨ s.listenerAlive = false) :
    receive_message s m env = s := by
  rcases h with h | h <;> simp [receive_message, h]

theorem process_stop_eq (s : SysState) (sd : Option StopData) (env : Env) :
    process_network_message s (.stop sd) env =
      (if (cleanup { s with running := false, dataThreadRunning := false } env.now).2 then
        (cleanup { s with running := false, dataThreadRunning := false } env.now).1
      else
        { (cleanup { s with running := false, dataThreadRunning := false } env.now).1 with
            stopEvent := true }) := rfl

theorem cleanup_guard_false (s : SysState) (now : Nat)
    (h : (s.acc.firstReadingTime.isSome && s.acc.lastReadingTime.isSome &&
          s.acc.firstMWh.isSome && s.acc.lastMWh.isSome) = false) :
    cleanup s now =
      ({ s with outputFile := s.outputFile.map fun f => { f with isOpen := false }
                acc := { s.acc with previousJoules := none } }, false) := by
  simp only [cleanup]
  rw [if_neg]
  simp [h]

theorem cleanup_latched_pos (s : SysState) (now : Nat) (ft lt fm lm : Nat)
    (hft : s.acc.firstReadingTime = some ft) (hlt : s.acc.lastReadingTime = some lt)
    (hfm : s.acc.firstMWh = some fm) (hlm : s.acc.lastMWh = some lm)
    (hit : 0 < (s.experimentParams.bind fun p => p.iterations).getD 1) :
    cleanup s now =
      ({ s with outputFile := s.outputFile.map fun f => { f with isOpen := false }
                acc := { s.acc with previousJoules := none }
                masterLog := s.masterLog ++
                  [{ timestamp := now
                     iterations := s.experimentParams.bind fun p => p.iterations
                     algorithm := s.experimentParams.bind fun p => p.algorithm
                     experiment_id := s.experimentParams.bind fun p => p.experiment_id
                     totalJoules := (((lm : Int) - (fm : Int) : Int) : ℚ) * (36 / 10)
                     durationSeconds := (((lt : Int) - (ft : Int) : Int) : ℚ)
                     joulesPer1000 :=
                       .num ((((lm : Int) - (fm : Int) : Int) : ℚ) * (36 / 10) /
                         (((s.experimentParams.bind fun p => p.iterations).getD 1 : Int) : ℚ) * 1000)
                     secondsPer1000 :=
                       .num ((((lt : Int) - (ft : Int) : Int) : ℚ) /
                         (((s.experimentParams.bind fun p => p.iterations).getD 1 : Int) : ℚ) * 1000) }] },
        false) := by
  simp [cleanup, hft, hlt, hfm, hlm, hit]

theorem cleanup_latched_nonpos (s : SysState) (now : Nat) (ft lt fm lm : Nat)
    (hft : s.acc.firstReadingTime = some ft) (hlt : s.acc.lastReadingTime = some lt)
    (hfm : s.acc.firstMWh = some fm) (hlm : s.acc.lastMWh = some lm)
    (hit : ¬ 0 < (s.experimentParams.bind fun p => p.iterations).getD 1) :
    cleanup s now =
      ({ s with outputFile := s.outputFile.map fun f => { f with isOpen := false } }, true) := by
  simp [cleanup, hft, hlt, hfm, hlm, hit]

theorem stop_raise_state (s : SysState) (env : Env) (sd : Option StopData)
    (hse : s.stopEvent = false) (hal : s.listenerAlive = true)
    (ft lt fm lm : Nat)
    (hft : s.acc.firstReadingTime = some ft) (hlt : s.acc.lastReadingTime = some lt)
    (hfm : s.acc.firstMWh = some fm) (hlm : s.acc.lastMWh = some lm)
    (hit : ¬ 0 < (s.experimentParams.bind fun p => p.iterations).getD 1) :
    receive_message s (.stop sd) env =
      { s with running := false, dataThreadRunning := false,
               outputFile := s.outputFile.map fun f => { f with isOpen := false } } := by
  rw [receive_message_open s _ env hse hal, process_stop_eq,
    cleanup_latched_nonpos { s with running := false, dataThreadRunning := false }
      env.now ft lt fm lm hft hlt hfm hlm hit, if_pos rfl]

theorem packFrame_cons (w : Nat) (ws : List Nat) :
    packFrame (w :: ws) = u32le w ++ packFrame ws := by
  simp [packFrame]

theorem packFrame_length (ws : List Nat) : (packFrame ws).length = 4 * ws.length := by
  induction ws with
  | nil => rfl
  | cons w ws ih =>
    rw [packFrame_cons, List.length_append, ih]
    simp [u32le]
    ring

theorem leU32_nil (off : Nat) : leU32 [] off = 0 := by
  simp [leU32, List.getD]

theorem leU32_u32le_prepend (v : Nat) (rest : List Nat) :
    leU32 (u32le v ++ rest) 0 = v % 4294967296 := by
  show leU32 (v % 256 :: (v / 256 % 256 :: (v / 65536 % 256 :: (v / 16777216 % 256 :: rest)))) 0 =
    v % 4294967296
  simp only [leU32, List.getD_cons_zero, List.getD_cons_succ]
  omega

theorem leU32_u32le_shift (v : Nat) (rest : List Nat) (n : Nat) :
    leU32 (u32le v ++ rest) (4 + n) = leU32 rest n := by
  have h4 : (u32le v).length = 4 := rfl
  simp only [leU32]
  rw [List.getD_append_right (u32le v) rest 0 (4 + n) (by rw [h4]; omega),
    List.getD_append_right (u32le v) rest 0 (4 + n + 1) (by rw [h4]; omega),
    List.getD_append_right (u32le v) rest 0 (4 + n + 2) (by rw [h4]; omega),
    List.getD_append_right (u32le v) rest 0 (4 + n + 3) (by rw [h4]; omega), h4]
  have e1 : 4 + n - 4 = n := by omega
  have e2 : 4 + n + 1 - 4 = n + 1 := by omega
  have e3 : 4 + n + 2 - 4 = n + 2 := by omega
  have e4 : 4 + n + 3 - 4 = n + 3 := by omega
  rw [e1, e2, e3, e4]

theorem leU32_packFrame (ws : List Nat) (k : Nat) :
    leU32 (packFrame ws) (4 * k) = ws.getD k 0 % 4294967296 := by
  induction ws generalizing k with
  | nil => simp [packFrame, leU32_nil, List.getD]
  | cons w ws ih =>
    rw [packFrame_cons]
    cases k with
    | zero => simpa using leU32_u32le_prepend w (packFrame ws)
    | succ k =>
      have hoff : 4 * (k + 1) = 4 + 4 * k := by ring
      rw [hoff, leU32_u32le_shift, ih, List.getD_cons_succ]

/-! ## Claim theorems -/

/-- C1: evaluation of the accumulator at the failing input.  The poll stream
delivers a good sample of 100 mWh (one extra copy is consumed by the
first-call flush poll) followed by a corrupted sample of 50 mWh.  Contrary to
the claim, the corrupted negative-delta sample advances `last_mWh` to 50, the
error counter stays 0 (it counts only exceptions), and the finalized summary
reports `(50 - 100) * 3.6 = -180` joules instead of `(100 - 100) * 3.6 = 0`
from the good samples with one rejected sample counted. -/
theorem C1_negative_sample_corrupts_final_energy :
    let step1 : AccState × Option PollData × List PollOutcome := read_usb_data
      AccState.initial 0
      [.record (mkPollData 100 0), .record (mkPollData 100 0), .record (mkPollData 50 0)]
    let step2 := read_usb_data step1.1 1 step1.2.2
    let s : SysState :=
      { SysState.initial with acc := step2.1, experimentParams := some expParams1 }
    step2.1.firstMWh = some 100 ∧ step2.1.lastMWh = some 50 ∧
    step2.1.GatherErrorCount = 0 ∧
    (cleanup s 2).2 = false ∧
    (cleanup s 2).1.masterLog.map SummaryRecord.totalJoules = [-180] := by
  norm_num [read_usb_data, readMain, popPoll, mkPollData, AccState.initial, cleanup,
    SysState.initial, expParams1]

/-- C2: evaluation of one ingest call at the failing input.  With the latch at
`first_mWh = 100`, a record whose combined charge is 50 mWh makes the running
energy `(50 - 100) * 3.6 = -180 < 0`; contrary to the claim the source still
advances `last_mWh` and `last_reading_time` and leaves `GatherErrorCount`
untouched (the guard at responder.py line 332 tests `last_mWh >= 0`, which is
always true for the unsigned counters, and the latches are updated before
it). -/
theorem C2_negative_energy_sample_advances_latch :
    let s : AccState :=
      { firstReadingTime := some 0, lastReadingTime := some 0, firstMWh := some 100,
        lastMWh := some 100, GatherErrorCount := 0, previousJoules := some 0 }
    let r := read_usb_data s 1 [.record (mkPollData 50 0)]
    ((50 : ℚ) - 100) * (36 / 10) < 0 ∧
    r.1.lastMWh = some 50 ∧ r.1.lastReadingTime = some 1 ∧
    r.1.firstMWh = some 100 ∧ r.1.GatherErrorCount = 0 ∧
    r.1.previousJoules = some (-180) := by
  norm_num [read_usb_data, readMain, popPoll, mkPollData]

/-- C3: whenever `cleanup` finalizes a session with latched first and last
readings and appends a summary row without raising, the total-joules field of
that row equals `(last_mWh - first_mWh) * 3.6`, for every session state —
in particular the value never depends on any intermediate per-sample delta. -/
theorem C3_summary_energy_is_latched_difference (s : SysState) (now : Nat) (ft lt fm lm : Nat)
    (hft : s.acc.firstReadingTime = some ft) (hlt : s.acc.lastReadingTime = some lt)
    (hfm : s.acc.firstMWh = some fm) (hlm : s.acc.lastMWh = some lm)
    (hok : (cleanup s now).2 = false) :
    ∃ row : SummaryRecord,
      (cleanup s now).1.masterLog = s.masterLog ++ [row] ∧
      row.totalJoules = (((lm : Int) - (fm : Int) : Int) : ℚ) * (36 / 10) := by
  by_cases hit : 0 < (s.experimentParams.bind fun p => p.iterations).getD 1
  · rw [cleanup_latched_pos s now ft lt fm lm hft hlt hfm hlm hit]
    exact ⟨_, rfl, rfl⟩
  · rw [cleanup_latched_nonpos s now ft lt fm lm hft hlt hfm hlm hit] at hok
    simp at hok

/-- C3 witness: `cleanup` on the concrete latched session appends one row
with total joules `(200 - 100) * 3.6`. -/
theorem C3_summary_energy_is_latched_difference_witness :
    ∃ row : SummaryRecord,
      (cleanup latchedState 11).1.masterLog = latchedState.masterLog ++ [row] ∧
      row.totalJoules = (((200 : Int) - (100 : Int) : Int) : ℚ) * (36 / 10) :=
  C3_summary_energy_is_latched_difference latchedState 11 0 10 100 200 rfl rfl rfl rfl
    (by decide)

/-- C4: decoding a 192-byte frame assembled from its 48 little-endian 32-bit
words succeeds and applies exactly the documented fixed-point scale factors to
the packed integer fields — voltage (word 12) times 1e-4, current (word 13)
times 1e-5, power (word 14) times 1e-4, resistance (word 17) times 1e-1,
D plus and D minus (words 24 and 25) times 1e-2 — and the temperature equals
the magnitude (word 23) multiplied by -1 exactly when the separate sign flag
(word 22) equals 1, and by +1 otherwise. -/
theorem C4_poll_scale_factors (ws : List Nat) (hlen : ws.length = 48) :
    ∃ pd : PollData,
      pollDecode (packFrame ws) = some pd ∧
      pd.Volt = ((ws.getD 12 0 % 4294967296 : Nat) : ℚ) * (1 / 10000) ∧
      pd.Current = ((ws.getD 13 0 % 4294967296 : Nat) : ℚ) * (1 / 100000) ∧
      pd.Power = ((ws.getD 14 0 % 4294967296 : Nat) : ℚ) * (1 / 10000) ∧
      pd.Resistance = ((ws.getD 17 0 % 4294967296 : Nat) : ℚ) * (1 / 10) ∧
      pd.D_plus = ((ws.getD 24 0 % 4294967296 : Nat) : ℚ) * (1 / 100) ∧
      pd.D_minus = ((ws.getD 25 0 % 4294967296 : Nat) : ℚ) * (1 / 100) ∧
      pd.Temp = ((ws.getD 23 0 % 4294967296 : Nat) : ℤ) *
        (if ws.getD 22 0 % 4294967296 = 1 then -1 else 1) ∧
      pd.G0_mWh = ws.getD 19 0 % 4294967296 ∧
      pd.G1_mWh = ws.getD 21 0 % 4294967296 := by
  have hfl : (packFrame ws).length = 192 := by
    rw [packFrame_length, hlen]
  have h12 : leU32 (packFrame ws) 48 = ws.getD 12 0 % 4294967296 := leU32_packFrame ws 12
  have h13 : leU32 (packFrame ws) 52 = ws.getD 13 0 % 4294967296 := leU32_packFrame ws 13
  have h14 : leU32 (packFrame ws) 56 = ws.getD 14 0 % 4294967296 := leU32_packFrame ws 14
  have h17 : leU32 (packFrame ws) 68 = ws.getD 17 0 % 4294967296 := leU32_packFrame ws 17
  have h19 : leU32 (packFrame ws) 76 = ws.getD 19 0 % 4294967296 := leU32_packFrame ws 19
  have h21 : leU32 (packFrame ws) 84 = ws.getD 21 0 % 4294967296 := leU32_packFrame ws 21
  have h22 : leU32 (packFrame ws) 88 = ws.getD 22 0 % 4294967296 := leU32_packFrame ws 22
  have h23 : leU32 (packFrame ws) 92 = ws.getD 23 0 % 4294967296 := leU32_packFrame ws 23
  have h24 : leU32 (packFrame ws) 96 = ws.getD 24 0 % 4294967296 := leU32_packFrame ws 24
  have h25 : leU32 (packFrame ws) 100 = ws.getD 25 0 % 4294967296 := leU32_packFrame ws 25
  unfold pollDecode
  rw [if_pos hfl]
  refine ⟨_, rfl, ?_, ?_, ?_, ?_, ?_, ?_, ?_, ?_, ?_⟩
  · show ((leU32 (packFrame ws) 48 : Nat) : ℚ) * (1 / 10000) = _
    rw [h12]
  · show ((leU32 (packFrame ws) 52 : Nat) : ℚ) * (1 / 100000) = _
    rw [h13]
  · show ((leU32 (packFrame ws) 56 : Nat) : ℚ) * (1 / 10000) = _
    rw [h14]
  · show ((leU32 (packFrame ws) 68 : Nat) : ℚ) * (1 / 10) = _
    rw [h17]
  · show ((leU32 (packFrame ws) 96 : Nat) : ℚ) * (1 / 100) = _
    rw [h24]
  · show ((leU32 (packFrame ws) 100 : Nat) : ℚ) * (1 / 100) = _
    rw [h25]
  · show ((leU32 (packFrame ws) 92 : Nat) : ℤ) *
      (if leU32 (packFrame ws) 88 = 1 then (-1 : ℤ) else 1) = _
    rw [h22, h23]
  · show leU32 (packFrame ws) 76 = _
    rw [h19]
  · show leU32 (packFrame ws) 84 = _
    rw [h21]

/-- C4 witness: the scale-factor theorem applied to the concrete frame
`sampleFrameWords`. -/
theorem C4_poll_scale_factors_witness :
    ∃ pd : PollData,
      pollDecode (packFrame sampleFrameWords) = some pd ∧
      pd.Volt = ((sampleFrameWords.getD 12 0 % 4294967296 : Nat) : ℚ) * (1 / 10000) ∧
      pd.Current = ((sampleFrameWords.getD 13 0 % 4294967296 : Nat) : ℚ) * (1 / 100000) ∧
      pd.Power = ((sampleFrameWords.getD 14 0 % 4294967296 : Nat) : ℚ) * (1 / 10000) ∧
      pd.Resistance = ((sampleFrameWords.getD 17 0 % 4294967296 : Nat) : ℚ) * (1 / 10) ∧
      pd.D_plus = ((sampleFrameWords.getD 24 0 % 4294967296 : Nat) : ℚ) * (1 / 100) ∧
      pd.D_minus = ((sampleFrameWords.getD 25 0 % 4294967296 : Nat) : ℚ) * (1 / 100) ∧
      pd.Temp = ((sampleFrameWords.getD 23 0 % 4294967296 : Nat) : ℤ) *
        (if sampleFrameWords.getD 22 0 % 4294967296 = 1 then -1 else 1) ∧
      pd.G0_mWh = sampleFrameWords.getD 19 0 % 4294967296 ∧
      pd.G1_mWh = sampleFrameWords.getD 21 0 % 4294967296 :=
  C4_poll_scale_factors sampleFrameWords (by decide)

/-- C5: evaluation of `cleanup` at the failing input: a latched session whose
parameters carry `iterations = 0`.  The derived rate variables do hold the
string `N/A`, but formatting the summary line applies `:.3f` to them, which
raises `ValueError`, so finalization aborts (flag `true`) and no summary row
is appended — contrary to the claim that finalization completes without any
error. -/
theorem C5_zero_iterations_raises_format_error :
    let s : SysState :=
      { SysState.initial with
          experimentParams := some { expParams1 with iterations := some 0 }
          acc := latchedAcc }
    (cleanup s 11).2 = true ∧ (cleanup s 11).1.masterLog = [] := by
  norm_num [cleanup, SysState.initial, expParams1, latchedAcc]

/-- C6 counterexample: run a full session from the initial state (`GETREADY`,
`START`, `STOP`).  After the stop message is processed, `stop_event` is set —
the network listener exits and the process ends — and a subsequent `GETREADY`
message has no effect, refuting the claim that the state machine is back in
`Idle` and able to accept a new ready transition within the same process. -/
theorem C6_stop_blocks_new_session_counterexample :
    let s1 := receive_message SysState.initial (.getready (some expParams1)) envOk
    let s2 := receive_message s1 .start envOk
    let s3 := receive_message s2 (.stop none) envOk
    s3.stopEvent = true ∧
    receive_message s3 (.getready (some expParams1)) envOk = s3 := by
  norm_num [receive_message, process_network_message, cleanup, SysState.initial,
    AccState.initial, envOk, expParams1]

/-- C6 amended: on a stop message received while running (listener alive,
stop event unset, readings latched, positive iteration count) the system
clears `running`, joins the acquisition thread, invokes the summary writer
(appending exactly one row), and sets the stop event, after which the
listener processes no further message — a fresh session needs a new process.
The stop-message metadata is parsed only after finalization, so a parse
failure cannot block it. -/
theorem C6_stop_finalizes_and_terminates (s : SysState) (sd : Option StopData) (env : Env)
    (hrun : s.running = true) (halive : s.listenerAlive = true) (hstop : s.stopEvent = false)
    (ft lt fm lm : Nat)
    (hft : s.acc.firstReadingTime = some ft) (hlt : s.acc.lastReadingTime = some lt)
    (hfm : s.acc.firstMWh = some fm) (hlm : s.acc.lastMWh = some lm)
    (hit : 0 < (s.experimentParams.bind fun p => p.iterations).getD 1) :
    ∃ row : SummaryRecord,
      (receive_message s (.stop sd) env).masterLog = s.masterLog ++ [row] ∧
      (receive_message s (.stop sd) env).running = false ∧
      (receive_message s (.stop sd) env).dataThreadRunning = false ∧
      (receive_message s (.stop sd) env).stopEvent = true ∧
      ∀ (m : NetMsg) (env2 : Env),
        receive_message (receive_message s (.stop sd) env) m env2 =
          receive_message s (.stop sd) env := by
  have hc := cleanup_latched_pos { s with running := false, dataThreadRunning := false }
    env.now ft lt fm lm hft hlt hfm hlm hit
  rw [receive_message_open s _ env hstop halive, process_stop_eq, hc, if_neg (by simp)]
  exact ⟨_, rfl, rfl, rfl, rfl, fun m env2 => receive_message_closed _ m env2 (Or.inl rfl)⟩

/-- C6 witness: the amended stop behaviour at the concrete running session
`runState`: the stop event is set and a replayed `GETREADY` has no effect. -/
theorem C6_stop_finalizes_and_terminates_witness :
    (receive_message runState (.stop none) envOk).stopEvent = true ∧
    receive_message (receive_message runState (.stop none) envOk)
        (.getready (some expParams1)) envOk =
      receive_message runState (.stop none) envOk := by
  obtain ⟨row, h1, h2, h3, h4, h5⟩ :=
    C6_stop_finalizes_and_terminates runState none envOk rfl rfl rfl 0 10 100 200
      rfl rfl rfl rfl (by decide)
  exact ⟨h4, h5 _ envOk⟩

/-- C7 counterexample: processing a well-formed `GETREADY` from the initial
state with a failing device connection leaves the new parameters installed and
the detail file opened and truncated with its header — refuting the claim that
no observable session state has been altered. -/
theorem C7_connect_failure_alters_state_counterexample :
    let s1 := receive_message SysState.initial (.getready (some expParams1)) envFail
    s1.experimentParams = some expParams1 ∧
    s1.outputFile = some { isOpen := true, headerWritten := true } ∧
    SysState.initial.experimentParams = none ∧ SysState.initial.outputFile = none := by
  norm_num [receive_message, process_network_message, SysState.initial, envFail]

/-- C7 amended: when the device connection fails during `GETREADY`
processing, the ready phase is not reached — no device connection exists and a
subsequent `START` is rejected without effect — but the message is not
side-effect free: the parsed parameters are installed and the detail file is
opened and truncated with its header before the connection attempt; the
reading latches are not reset. -/
theorem C7_connect_failure_aborts_ready (s : SysState) (p : ExperimentParams) (env : Env)
    (halive : s.listenerAlive = true) (hstop : s.stopEvent = false)
    (htc : s.tc66cConnected = false)
    (hfail : env.connect = .otherFail) (hfile : env.fileOpenOk = true) :
    (receive_message s (.getready (some p)) env).tc66cConnected = false ∧
    (receive_message s (.getready (some p)) env).running = s.running ∧
    (receive_message s (.getready (some p)) env).experimentParams = some p ∧
    (receive_message s (.getready (some p)) env).outputFile =
      some { isOpen := true, headerWritten := true } ∧
    (receive_message s (.getready (some p)) env).acc = s.acc ∧
    ∀ env2 : Env,
      receive_message (receive_message s (.getready (some p)) env) .start env2 =
        receive_message s (.getready (some p)) env := by
  simp [receive_message, process_network_message, hstop, halive, hfail, hfile, htc]

/-- C7 witness: the amended ready-abort behaviour applied at the initial
state: parameters installed, file opened, and a following `START` ignored. -/
theorem C7_connect_failure_aborts_ready_witness :
    (receive_message SysState.initial (.getready (some expParams1)) envFail).experimentParams =
      some expParams1 ∧
    (receive_message SysState.initial (.getready (some expParams1)) envFail).outputFile =
      some { isOpen := true, headerWritten := true } ∧
    receive_message (receive_message SysState.initial (.getready (some expParams1)) envFail)
        .start envFail =
      receive_message SysState.initial (.getready (some expParams1)) envFail := by
  obtain ⟨h1, h2, h3, h4, h5, h6⟩ :=
    C7_connect_failure_aborts_ready SysState.initial expParams1 envFail rfl rfl rfl rfl rfl
  exact ⟨h3, h4, h6 envFail⟩

/-- C8: replaying a `STOP` message never appends another summary row: for
every state, processing a second stop datagram leaves the master log exactly
as it was after the first.  (After a successful stop the stop event is set and
the listener drops the replay; if finalization raised, the replay raises at
the same point, again before any row is written.) -/
theorem C8_stop_replay_appends_no_row (s : SysState) (sd sd2 : Option StopData) (env env2 : Env) :
    (receive_message (receive_message s (.stop sd) env) (.stop sd2) env2).masterLog =
      (receive_message s (.stop sd) env).masterLog := by
  by_cases hse : s.stopEvent = true
  · rw [receive_message_closed s _ env (Or.inl hse),
      receive_message_closed s _ env2 (Or.inl hse)]
  · by_cases hal : s.listenerAlive = true
    · replace hse : s.stopEvent = false := by simpa using hse
      cases hg : (s.acc.firstReadingTime.isSome && s.acc.lastReadingTime.isSome &&
          s.acc.firstMWh.isSome && s.acc.lastMWh.isSome) with
      | false =>
        rw [receive_message_open s _ env hse hal, process_stop_eq,
          cleanup_guard_false { s with running := false, dataThreadRunning := false } env.now hg,
          if_neg (by simp)]
        exact congrArg SysState.masterLog (receive_message_closed _ _ env2 (Or.inl rfl))
      | true =>
        simp only [Bool.and_eq_true] at hg
        obtain ⟨⟨⟨h1, h2⟩, h3⟩, h4⟩ := hg
        rw [Option.isSome_iff_exists] at h1 h2 h3 h4
        obtain ⟨ft, hft⟩ := h1
        obtain ⟨lt, hlt⟩ := h2
        obtain ⟨fm, hfm⟩ := h3
        obtain ⟨lm, hlm⟩ := h4
        by_cases hit : 0 < (s.experimentParams.bind fun p => p.iterations).getD 1
        · rw [receive_message_open s _ env hse hal, process_stop_eq,
            cleanup_latched_pos { s with running := false, dataThreadRunning := false }
              env.now ft lt fm lm hft hlt hfm hlm hit, if_neg (by simp)]
          exact congrArg SysState.masterLog (receive_message_closed _ _ env2 (Or.inl rfl))
        · rw [stop_raise_state s env sd hse hal ft lt fm lm hft hlt hfm hlm hit,
            stop_raise_state
              { s with running := false, dataThreadRunning := false,
                       outputFile := s.outputFile.map fun f => { f with isOpen := false } }
              env2 sd2 hse hal ft lt fm lm hft hlt hfm hlm hit]
    · have hal2 : s.listenerAlive = false := by simpa using hal
      rw [receive_message_closed s _ env (Or.inr hal2),
        receive_message_closed s _ env2 (Or.inr hal2)]

/-- C9 counterexample: `SendCmd` accepts the name `zzzzz`, which is outside
the documented command set, and transmits its ASCII bytes instead of failing
— refuting the claim that unrecognized names fail with an invalid-command
error. -/
theorem C9_unknown_command_not_rejected :
    "zzzzz" ∉ validCommands ∧ SendCmd "zzzzz" = some [122, 122, 122, 122, 122] := by
  decide

/-- C9 amended: `SendCmd` transmits the ASCII encoding of any name whose
characters are all ASCII, performing no membership check against the seven
documented command names; the only failure mode is a non-ASCII character. -/
theorem C9_sendcmd_encodes_ascii (msg : String) (h : ∀ c ∈ msg.toList, c.toNat < 128) :
    SendCmd msg = some (msg.toList.map Char.toNat) := by
  unfold SendCmd
  rw [if_pos]
  rw [List.all_eq_true]
  intro c hc
  simpa using h c hc

/-- C9 witness: the documented command `query` is encoded to its ASCII
bytes. -/
theorem C9_sendcmd_encodes_ascii_witness :
    SendCmd "query" = some ("query".toList.map Char.toNat) :=
  C9_sendcmd_encodes_ascii "query" (by decide)

/-- C10: when no reading was latched (session stopped before any successful
ingest), `cleanup` raises nothing, appends no row to the summary log, and
leaves the log, the parameters and the latches unchanged; only the
detail-file handle is closed. -/
theorem C10_unlatched_cleanup_appends_no_row (s : SysState) (now : Nat)
    (h1 : s.acc.firstReadingTime = none) (h2 : s.acc.lastReadingTime = none)
    (h3 : s.acc.firstMWh = none) (h4 : s.acc.lastMWh = none) :
    (cleanup s now).2 = false ∧
    (cleanup s now).1.masterLog = s.masterLog ∧
    (cleanup s now).1.outputFile = s.outputFile.map (fun f => { f with isOpen := false }) ∧
    (cleanup s now).1.experimentParams = s.experimentParams ∧
    (cleanup s now).1.acc.firstReadingTime = none ∧
    (cleanup s now).1.acc.lastReadingTime = none ∧
    (cleanup s now).1.acc.firstMWh = none ∧
    (cleanup s now).1.acc.lastMWh = none := by
  rw [cleanup_guard_false s now (by simp [h1])]
  simp [h1, h2, h3, h4]

/-- C10 witness: `cleanup` at the initial (unlatched) state changes nothing
but the detail-file handle. -/
theorem C10_unlatched_cleanup_appends_no_row_witness :
    (cleanup SysState.initial 0).2 = false ∧
    (cleanup SysState.initial 0).1.masterLog = SysState.initial.masterLog ∧
    (cleanup SysState.initial 0).1.outputFile =
      SysState.initial.outputFile.map (fun f => { f with isOpen := false }) ∧
    (cleanup SysState.initial 0).1.experimentParams = SysState.initial.experimentParams ∧
    (cleanup SysState.initial 0).1.acc.firstReadingTime = none ∧
    (cleanup SysState.initial 0).1.acc.lastReadingTime = none ∧
    (cleanup SysState.initial 0).1.acc.firstMWh = none ∧
    (cleanup SysState.initial 0).1.acc.lastMWh = none :=
  C10_unlatched_cleanup_appends_no_row SysState.initial 0 rfl rfl rfl rfl

end PQCEnergyPi
